import Mathlib

/-!
Verification of the job-search core of the ADK_MCP repository
(src/function_tool.py): the Job Search Client (search_jobs_api) and the
Statistics Aggregator (calculate_job_statistics).

The embedding models Python values dynamically: a JSON payload decoded by
requests is an arbitrary `Py` value, and every Python operation that can
raise (attribute access `.get` on a non-dict, `in` / indexing on values of
the wrong type, iteration over a non-iterable, hashing an unhashable dict
key) is modelled in the `Except String` monad, so that the try/except
structure of search_jobs_api and the raise-freedom claims are faithful.
The HTTP transaction itself is a parameter: a function from the transmitted
query parameters to a `FetchOutcome` (an exception raised by
requests.get / raise_for_status / response.json, or a decoded JSON body).
-/

set_option maxRecDepth 4000

/-- A dynamic Python/JSON value: None, bool, int, str, list, dict
(dict keys are strings, as produced by JSON decoding; insertion order is
the list order). -/
inductive Py where
  | none
  | bool (b : Bool)
  | int (n : Int)
  | str (s : String)
  | list (xs : List Py)
  | dict (entries : List (String × Py))

mutual

/-- Python equality (`==`) between values: numeric cross-type equality
identifies True with 1 and False with 0; strings, None compare only with
themselves; lists compare elementwise.  (dict-with-dict comparison is
modelled up to entry order; no code path of this development compares two
dicts, since dict keys fail the hashability check first.) -/
def pyEq : Py → Py → Bool
  | .none, .none => true
  | .bool a, .bool b => a == b
  | .bool a, .int n => (if a then (1 : Int) else 0) == n
  | .int n, .bool a => n == (if a then (1 : Int) else 0)
  | .int m, .int n => m == n
  | .str s, .str t => s == t
  | .list xs, .list ys => pyEqList xs ys
  | .dict xs, .dict ys => pyEqDict xs ys
  | _, _ => false

/-- Elementwise Python equality of lists. -/
def pyEqList : List Py → List Py → Bool
  | [], [] => true
  | x :: xs, y :: ys => pyEq x y && pyEqList xs ys
  | _, _ => false

/-- Entrywise Python equality of dict entry lists. -/
def pyEqDict : List (String × Py) → List (String × Py) → Bool
  | [], [] => true
  | (k, v) :: xs, (k2, v2) :: ys => k == k2 && pyEq v v2 && pyEqDict xs ys
  | _, _ => false

end

/-- Python truthiness: None and False are falsy, numbers are truthy iff
nonzero, strings/lists/dicts are truthy iff nonempty. -/
def pyTruthy : Py → Bool
  | .none => false
  | .bool b => b
  | .int n => n != 0
  | .str s => !s.isEmpty
  | .list xs => !xs.isEmpty
  | .dict d => !d.isEmpty

/-- Python hashability: lists and dicts are unhashable (using one as a dict
key raises TypeError); all atoms are hashable. -/
def pyHashable : Py → Bool
  | .list _ => false
  | .dict _ => false
  | _ => true

mutual

/-- Python str() conversion, used by f-string interpolation: strings are
taken verbatim, ints in decimal, True/False/None by name, lists and dicts
by their repr-based display.  (repr of a string is modelled as the string
between single quotes, without Python's escaping/quote-selection rules:
no claim evaluates str() on a composite containing quote characters.) -/
def pyStr : Py → String
  | .none => "None"
  | .bool b => if b then "True" else "False"
  | .int n => toString n
  | .str s => s
  | .list xs => "[" ++ pyReprJoin xs ++ "]"
  | .dict d => "\x7b" ++ pyReprEntries d ++ "\x7d"

/-- Python repr() of a value, as used for elements inside a displayed
list or dict: like str() except that strings are quoted. -/
def pyRepr : Py → String
  | .str s => "'" ++ s ++ "'"
  | .none => "None"
  | .bool b => if b then "True" else "False"
  | .int n => toString n
  | .list xs => "[" ++ pyReprJoin xs ++ "]"
  | .dict d => "\x7b" ++ pyReprEntries d ++ "\x7d"

/-- Comma-separated reprs of list elements. -/
def pyReprJoin : List Py → String
  | [] => ""
  | [x] => pyRepr x
  | x :: xs => pyRepr x ++ ", " ++ pyReprJoin xs

/-- Comma-separated key: value reprs of dict entries. -/
def pyReprEntries : List (String × Py) → String
  | [] => ""
  | [(k, v)] => "'" ++ k ++ "': " ++ pyRepr v
  | (k, v) :: es => "'" ++ k ++ "': " ++ pyRepr v ++ ", " ++ pyReprEntries es

end

/-- Value of `d[key]` for a Python dict given as an entry list: the first
entry with the matching key (a decoded-JSON dict has distinct keys). -/
def dictLookup (d : List (String × Py)) (key : String) : Option Py :=
  (d.find? (fun e => e.1 == key)).map (fun e => e.2)

/-- Python `v.get(key, default)`: returns the stored value or the default
on a dict, raises AttributeError on any non-dict value. -/
def pyGet (v : Py) (key : String) (default : Py) : Except String Py :=
  match v with
  | .dict d => .ok ((dictLookup d key).getD default)
  | _ => .error "AttributeError: object has no attribute get"

/-- Substring test on character lists (Python `sub in s` for strings). -/
def charsContain (sub : List Char) : List Char → Bool
  | [] => sub.isEmpty
  | c :: rest => sub.isPrefixOf (c :: rest) || charsContain sub rest

/-- Python `key in v` for a string key: key membership on dicts, element
equality on lists, substring test on strings; raises TypeError on
non-container values. -/
def pyContains (v : Py) (key : String) : Except String Bool :=
  match v with
  | .dict d => .ok (d.any (fun e => e.1 == key))
  | .list xs => .ok (xs.any (fun x => pyEq x (.str key)))
  | .str s => .ok (charsContain key.data s.data)
  | _ => .error "TypeError: argument is not iterable"

/-- Python `v[key]` for a string key: dict indexing (KeyError when the key
is missing), TypeError on any other value. -/
def pyIndex (v : Py) (key : String) : Except String Py :=
  match v with
  | .dict d =>
    match dictLookup d key with
    | some x => .ok x
    | Option.none => .error "KeyError"
  | _ => .error "TypeError: value cannot be indexed by a string"

/-- Python iteration `for x in v`: list elements, string characters, dict
keys; raises TypeError on non-iterables. -/
def pyIterate (v : Py) : Except String (List Py) :=
  match v with
  | .list xs => .ok xs
  | .str s => .ok (s.data.map (fun c => .str (String.singleton c)))
  | .dict d => .ok (d.map (fun e => .str e.1))
  | _ => .error "TypeError: object is not iterable"

/-!
Description pipeline (src/function_tool.py lines 76-82):
BeautifulSoup(description, 'html.parser').get_text(), then
re.sub(r'\n+', '\n', text).strip(), then truncation to 500 characters with
an appended "..." only when longer.
-/

/-- Tag-stripping scanner: text outside angle-bracket tags is kept, tag
contents are dropped.  Models BeautifulSoup's get_text() on markup made of
simple tags and character data (no entity references, comments or CDATA):
get_text joins the document's text nodes with an empty separator, so
adjacent text nodes are concatenated with nothing in between. -/
def stripTagsAux : Bool → List Char → List Char
  | _, [] => []
  | false, '<' :: rest => stripTagsAux true rest
  | false, c :: rest => c :: stripTagsAux false rest
  | true, '>' :: rest => stripTagsAux false rest
  | true, _ :: rest => stripTagsAux true rest

/-- Plain text of an HTML fragment: soup.get_text() (see stripTagsAux). -/
def getText (s : String) : String := String.mk (stripTagsAux false s.data)

/-- re.sub(r'\n+', '\n', s) on a character list: every maximal run of
newlines becomes a single newline. -/
def collapseAux : List Char → List Char
  | [] => []
  | [c] => [c]
  | c :: d :: rest =>
    if c = '\n' ∧ d = '\n' then collapseAux (d :: rest)
    else c :: collapseAux (d :: rest)

/-- re.sub(r'\n+', '\n', s). -/
def collapseNewlines (s : String) : String := String.mk (collapseAux s.data)

/-- The ASCII whitespace characters removed by Python str.strip(). -/
def isPyWs (c : Char) : Bool :=
  c = ' ' || c = '\t' || c = '\n' || c = '\r' || c = '\x0b' || c = '\x0c'

/-- Python s.strip(): drops leading and trailing whitespace. -/
def pyStrip (s : String) : String :=
  String.mk (((s.data.dropWhile isPyWs).reverse.dropWhile isPyWs).reverse)

/-- plain_text[:500] + '...' if len(plain_text) > 500 else plain_text. -/
def truncateDesc (s : String) : String :=
  if s.length > 500 then String.mk (s.data.take 500) ++ "..." else s

/-- The whole description pipeline applied to a (string) JobDescription. -/
def descProcess (s : String) : String :=
  truncateDesc (pyStrip (collapseNewlines (getText s)))

/-- Lines 77-82: description = job.get('JobDescription', ''); a truthy
string is cleaned by descProcess; a truthy non-string raises (BeautifulSoup
rejects non-string input); a falsy value is kept as-is, unprocessed. -/
def descInfo (job : Py) : Except String Py := do
  let d ← pyGet job "JobDescription" (.str "")
  if pyTruthy d then
    match d with
    | .str s => pure (.str (descProcess s))
    | _ => .error "TypeError: object is not a string for BeautifulSoup"
  else pure d

/-!
Salary extraction (src/function_tool.py lines 67-74).
-/

/-- Lines 68-74: salary_info is None when the hide-salary flag
id_Job_Donotdisplaysalary (default 0) is truthy; otherwise, when
Salaryrange.caption (default None over default dict) is truthy, it is the
f-string "{currency} {range} per {interval}" with currency and interval
read from id_Job_Currency.caption / id_Job_Interval.caption, defaulting to
SGD and Month when the nested label is absent. -/
def salaryInfo (job : Py) : Except String (Option String) := do
  let flag ← pyGet job "id_Job_Donotdisplaysalary" (.int 0)
  if pyTruthy flag then pure Option.none
  else do
    let sr ← pyGet job "Salaryrange" (.dict [])
    let cap ← pyGet sr "caption" .none
    if pyTruthy cap then do
      let curD ← pyGet job "id_Job_Currency" (.dict [])
      let cur ← pyGet curD "caption" (.str "SGD")
      let ivD ← pyGet job "id_Job_Interval" (.dict [])
      let iv ← pyGet ivD "caption" (.str "Month")
      pure (Option.some (pyStr cur ++ " " ++ pyStr cap ++ " per " ++ pyStr iv))
    else pure Option.none

/-!
Job record construction (src/function_tool.py lines 62-103).
-/

/-- One normalized job listing, the job_info dict of lines 84-101.  Fields
hold dynamic Py values exactly where the source passes a fetched value
through unchanged; url, salary and the processed description branch are
the only computed strings. -/
structure JobRecord where
  job_id : Py
  title : Py
  company : Py
  url : String
  categories : List Py
  employment_type : List Py
  location : List Py
  salary : Option String
  experience : Py
  education : Py
  position_level : Py
  work_arrangement : Py
  skills : Py
  posted_date : Py
  expires_date : Py
  description : Py

/-- [x.get('caption', '') for x in v]: caption of each element of a
taxonomy list (raises when v is not iterable or an element is not a
dict). -/
def capList (v : Py) : Except String (List Py) := do
  let xs ← pyIterate v
  xs.mapM (fun cat => pyGet cat "caption" (.str ""))

/-- job.get(key, ).get('caption', default): the nested caption-with-default
pattern of lines 93-96. -/
def captionOf (job : Py) (key : String) (default : Py) : Except String Py := do
  let v ← pyGet job key (.dict [])
  pyGet v "caption" default

/-- Lines 63-103: one result-list item to one JobRecord; every fallible
Python access is sequenced in source order, so the first raise aborts the
whole search (caught at its boundary). -/
def parseItem (item : Py) : Except String JobRecord := do
  let job ← pyGet item "job" (.dict [])
  let company ← pyGet item "company" (.dict [])
  let salary ← salaryInfo job
  let descr ← descInfo job
  let jid ← pyGet job "id" (.str "")
  let title ← pyGet job "Title" (.str "N/A")
  let cname ← pyGet company "CompanyName" (.str "N/A")
  let idOpt ← pyGet job "id" .none
  let url := if pyTruthy idOpt
    then "https://www.findsgjobs.com/job/" ++ pyStr jid else ""
  let cats ← capList (← pyGet job "JobCategory" (.list []))
  let emps ← capList (← pyGet job "EmploymentType" (.list []))
  let locs ← capList (← pyGet job "id_Job_NearestMRTStation" (.list []))
  let exp ← captionOf job "MinimumYearsofExperience" (.str "N/A")
  let edu ← captionOf job "MinimumEducationLevel" (.str "N/A")
  let pos ← captionOf job "id_Job_PositionLevel" (.str "N/A")
  let wa ← captionOf job "id_Job_WorkArrangement" (.str "N/A")
  let skills ← pyGet job "id_Job_Skills" (.list [])
  let posted ← pyGet job "activation_date" (.str "N/A")
  let expires ← pyGet job "expiration_date" (.str "N/A")
  pure { job_id := jid, title := title, company := cname, url := url,
         categories := cats, employment_type := emps, location := locs,
         salary := salary, experience := exp, education := edu,
         position_level := pos, work_arrangement := wa, skills := skills,
         posted_date := posted, expires_date := expires,
         description := descr }

/-!
The search entry point (src/function_tool.py lines 20-123).
-/

/-- Outcome of the HTTP transaction performed by requests.get +
response.raise_for_status() + response.json(): a requests.RequestException
(connection failure, timeout, or HTTPError raised by raise_for_status on a
non-2xx status such as 503, or a JSON decode error in current requests
versions), some other exception raised before parsing begins, or a decoded
JSON body. -/
inductive FetchOutcome where
  | requestException (msg : String)
  | otherException (msg : String)
  | body (json : Py)

/-- Lines 34-38: the query parameters transmitted to the remote endpoint;
per_page_count is clamped to min(per_page_count, 20). -/
def requestParams (keywords : String) (page : Int) (per_page_count : Int) :
    List (String × Py) :=
  [("page", .int page),
   ("per_page_count", .int (min per_page_count 20)),
   ("keywords", .str keywords)]

/-- The success payload of a search (lines 105-112): total_jobs,
current_page and total_pages are fetched values passed through from the
pager block (or their int initializations), results_on_page is
len(jobs). -/
structure SearchSuccess where
  total_jobs : Py
  current_page : Py
  total_pages : Py
  results_on_page : Nat
  jobs : List JobRecord

/-- A search result dict: the failure shape of lines 114-123 (success
False plus an error string) or the success shape of lines 105-112. -/
inductive SearchOutput where
  | failure (error : String)
  | success (payload : SearchSuccess)

/-- Lines 45-112, the body of the try block after response.json(): pager
extraction (lines 51-59) and result-list parsing (lines 62-103) over a
decoded JSON body, in the Except monad: any modelled Python exception
aborts the computation. -/
def buildSuccess (page : Int) (body : Py) : Except String SearchSuccess := do
  let hasData ← pyContains body "data"
  if hasData then do
    let data ← pyIndex body "data"
    let hasPager ← pyContains data "pager"
    let pagerVals ←
      if hasPager then do
        let pager ← pyIndex data "pager"
        let tc ← pyGet pager "record_count" (.int 0)
        let cp ← pyGet pager "page" (.int page)
        let tp ← pyGet pager "page_count" (.int 0)
        pure (tc, cp, tp)
      else pure (Py.int 0, Py.int page, Py.int 0)
    let hasResult ← pyContains data "result"
    let jobs ←
      if hasResult then do
        let res ← pyIndex data "result"
        let items ← pyIterate res
        items.mapM parseItem
      else pure []
    pure ⟨pagerVals.1, pagerVals.2.1, pagerVals.2.2, jobs.length, jobs⟩
  else
    pure ⟨.int 0, .int page, .int 0, 0, []⟩

/-- search_jobs_api (lines 20-123).  The remote endpoint is a parameter
mapping the transmitted query parameters to a FetchOutcome.  The try/except
structure: a RequestException gives the "API request failed" failure dict,
any other exception (from the fetch or from parsing) gives the
"Unexpected error" failure dict, and no exception escapes. -/
def search_jobs_api (keywords : String) (page : Int) (per_page_count : Int)
    (remote : List (String × Py) → FetchOutcome) : SearchOutput :=
  match remote (requestParams keywords page per_page_count) with
  | .requestException msg => .failure ("API request failed: " ++ msg)
  | .otherException msg => .failure ("Unexpected error: " ++ msg)
  | .body json =>
    match buildSuccess page json with
    | .ok payload => .success payload
    | .error msg => .failure ("Unexpected error: " ++ msg)

/-!
The statistics aggregator (src/function_tool.py lines 126-191).
-/

/-- counts[key] = counts.get(key, 0) + 1 on an insertion-ordered Python
dict: the first entry whose key is Python-equal to the new key is
incremented in place (keeping the originally inserted key object);
otherwise the new key is appended with count 1. -/
def bumpKey (m : List (Py × Nat)) (k : Py) : List (Py × Nat) :=
  match m with
  | [] => [(k, 1)]
  | (k2, n) :: rest =>
    if pyEq k2 k then (k2, n + 1) :: rest else (k2, n) :: bumpKey rest k

/-- The same increment including Python's hashability check: using an
unhashable (list or dict) key raises TypeError, which
calculate_job_statistics does not catch. -/
def bump (m : List (Py × Nat)) (k : Py) : Except String (List (Py × Nat)) :=
  if pyHashable k then .ok (bumpKey m k) else .error "TypeError: unhashable type"

/-- The count a counter dict reports for a key (0 when absent). -/
def lookupCount (m : List (Py × Nat)) (k : Py) : Nat :=
  match m with
  | [] => 0
  | (k2, n) :: rest => if pyEq k2 k then n else lookupCount rest k

/-- Lines 155-157 / 160-162 / 165-167: one pass over a multi-valued
taxonomy list, incrementing the counter for each truthy value in order. -/
def countMulti (m : List (Py × Nat)) : List Py → Except String (List (Py × Nat))
  | [] => .ok m
  | c :: cs =>
    if pyTruthy c then
      match bump m c with
      | .ok m2 => countMulti m2 cs
      | .error e => .error e
    else countMulti m cs

/-- Lines 170-172 / 175-177: a single-valued field is counted when truthy
and not equal to the "N/A" default. -/
def countSingle (m : List (Py × Nat)) (v : Py) : Except String (List (Py × Nat)) :=
  if pyTruthy v && !(pyEq v (.str "N/A")) then bump m v else .ok m

/-- The five counter dicts of lines 147-151, in insertion order. -/
structure Counters where
  cats : List (Py × Nat)
  emps : List (Py × Nat)
  locs : List (Py × Nat)
  edus : List (Py × Nat)
  exps : List (Py × Nat)

/-- One iteration of the loop of lines 153-177: the contribution of a
single job to the five counters, in source order. -/
def statsStep (st : Counters) (job : JobRecord) : Except String Counters := do
  let c ← countMulti st.cats job.categories
  let e ← countMulti st.emps job.employment_type
  let l ← countMulti st.locs job.location
  let ed ← countSingle st.edus job.education
  let ex ← countSingle st.exps job.experience
  pure ⟨c, e, l, ed, ex⟩

/-- The whole counting loop over the analyzed jobs, from fresh empty
counters. -/
def buildCounters (jobs : List JobRecord) : Except String Counters :=
  jobs.foldlM statsStep ⟨[], [], [], [], []⟩

/-- Stable insertion into a descending-by-count list: the new entry goes
in front of the first entry whose count does not exceed it, so an earlier
entry precedes later entries with an equal count. -/
def insertDesc (x : Py × Nat) : List (Py × Nat) → List (Py × Nat)
  | [] => [x]
  | y :: ys => if x.2 < y.2 then y :: insertDesc x ys else x :: y :: ys

/-- sorted(m.items(), key=lambda x: x[1], reverse=True): Python's sorted is
stable, and reverse=True keeps equal elements in original order, so this is
a stable descending sort by count. -/
def sortDesc : List (Py × Nat) → List (Py × Nat)
  | [] => []
  | x :: xs => insertDesc x (sortDesc xs)

/-- The statistics block of lines 184-190: the category and location
tables ranked descending and truncated to 5, the other three returned as
full insertion-ordered maps. -/
structure Statistics where
  top_categories : List (Py × Nat)
  employment_types : List (Py × Nat)
  top_locations : List (Py × Nat)
  education_requirements : List (Py × Nat)
  experience_requirements : List (Py × Nat)

/-- dict(sorted(...)[:5]) for the two ranked tables, pass-through for the
other three (lines 184-190). -/
def mkStatistics (c : Counters) : Statistics :=
  { top_categories := (sortDesc c.cats).take 5,
    employment_types := c.emps,
    top_locations := (sortDesc c.locs).take 5,
    education_requirements := c.edus,
    experience_requirements := c.exps }

/-- The success payload of calculate_job_statistics (lines 179-191). -/
structure StatsSuccess where
  keyword : String
  total_jobs_in_market : Py
  jobs_analyzed : Nat
  statistics : Statistics

/-- A statistics result dict: the propagated failure shape (line 141
returns the failed search result unchanged: success False and the same
error string) or the success shape of lines 179-191. -/
inductive StatsOutput where
  | failure (error : String)
  | success (payload : StatsSuccess)

/-- calculate_job_statistics (lines 126-191): delegates to search_jobs_api
with page=1 and per_page_count=min(sample_size, 20); a failed search is
returned unchanged; on success the five counters are built in one loop
(the loop itself can raise TypeError on an unhashable counted value, and
this function has no try/except, so that raise escapes: it is the .error
case of the outer Except). -/
def calculate_job_statistics (keywords : String) (sample_size : Int)
    (remote : List (String × Py) → FetchOutcome) : Except String StatsOutput :=
  match search_jobs_api keywords 1 (min sample_size 20) remote with
  | .failure e => .ok (.failure e)
  | .success s =>
    match buildCounters s.jobs with
    | .error e => .error e
    | .ok c =>
      .ok (.success ⟨keywords, s.total_jobs, s.jobs.length, mkStatistics c⟩)

/-!
Auxiliary predicates and concrete fixtures used by the claim theorems.
-/

/-- A job contributes to the counters without raising exactly when every
value it would count is hashable: truthy entries of the three taxonomy
lists, and the education/experience values when truthy and not "N/A".
(An unhashable counted value makes the uncaught counter update raise.) -/
def jobCountable (job : JobRecord) : Bool :=
  job.categories.all (fun c => !pyTruthy c || pyHashable c) &&
  job.employment_type.all (fun c => !pyTruthy c || pyHashable c) &&
  job.location.all (fun c => !pyTruthy c || pyHashable c) &&
  (!(pyTruthy job.education && !pyEq job.education (.str "N/A")) ||
    pyHashable job.education) &&
  (!(pyTruthy job.experience && !pyEq job.experience (.str "N/A")) ||
    pyHashable job.experience)

/-- The caption entry of a nested label dict is absent or a string. -/
def capStrOrAbsent (d : List (String × Py)) : Bool :=
  match dictLookup d "caption" with
  | Option.none => true
  | some (.str _) => true
  | some _ => false

/-- A nested label field value (as looked up on the job dict) is absent,
or a dict whose caption is absent or a string. -/
def capOKO (o : Option Py) : Bool :=
  match o with
  | Option.none => true
  | some (.dict d) => capStrOrAbsent d
  | some _ => false

/-- Shape of a job dict under which the specification states the salary
rule: the Salaryrange, id_Job_Currency and id_Job_Interval fields are each
absent or a dict whose caption is absent or a string label. -/
def salaryFieldsOK (jd : List (String × Py)) : Bool :=
  capOKO (dictLookup jd "Salaryrange") &&
  capOKO (dictLookup jd "id_Job_Currency") &&
  capOKO (dictLookup jd "id_Job_Interval")

/-- The caption string of a nested label field value, or the given
fallback when the field or its caption label is absent. -/
def specLabelO (o : Option Py) (fallback : String) : String :=
  match o with
  | some (.dict d) =>
    match dictLookup d "caption" with
    | some (.str s) => s
    | _ => fallback
  | _ => fallback

/-- The caption string of a nested label dict entry of a job dict, or the
given fallback when the field or its caption label is absent. -/
def specLabel (jd : List (String × Py)) (key fallback : String) : String :=
  specLabelO (dictLookup jd key) fallback

/-- The salary rule exactly as the specification words it, for comparison
with the implementation: salary is absent whenever the hide-salary flag is
truthy; otherwise it is present exactly when the salary-range label is
non-empty, and then reads "currency range per interval" with currency
defaulting to SGD and interval to Month when their nested labels are
absent. -/
def salarySpecC5 (jd : List (String × Py)) : Option String :=
  if pyTruthy ((dictLookup jd "id_Job_Donotdisplaysalary").getD (.int 0)) then
    Option.none
  else
    let range := specLabel jd "Salaryrange" ""
    if range = "" then Option.none
    else some (specLabel jd "id_Job_Currency" "SGD" ++ " " ++ range ++
               " per " ++ specLabel jd "id_Job_Interval" "Month")

/-- A response body whose pager reports record_count 150, page 1,
page_count 8 over an empty result list. -/
def pagerBody : Py := .dict [("data", .dict [
  ("pager", .dict [("record_count", .int 150), ("page", .int 1),
                   ("page_count", .int 8)]),
  ("result", .list [])])]

/-- A response body whose pager claims zero records while the result list
holds two (empty-object) items: a remote answer the client code accepts
as-is. -/
def overfullBody : Py := .dict [("data", .dict [
  ("pager", .dict [("record_count", .int 0)]),
  ("result", .list [.dict [], .dict []])])]

/-- A response body with two jobs sharing the category F&B, one carrying a
Degree education label, under a pager reporting 150 records. -/
def twoJobsBody : Py := .dict [("data", .dict [
  ("pager", .dict [("record_count", .int 150)]),
  ("result", .list [
    .dict [("job", .dict [
      ("JobCategory", .list [.dict [("caption", .str "F&B")]]),
      ("MinimumEducationLevel", .dict [("caption", .str "Degree")])])],
    .dict [("job", .dict [
      ("JobCategory", .list [.dict [("caption", .str "F&B")]])])]])])]

/-- A result item whose job carries the two-paragraph HTML description
used by the round-trip scenario. -/
def helloWorldItem : Py := .dict [("job", .dict [
  ("JobDescription", .str "<p>Hello</p><p>World</p>")])]

/-- A result item whose job has one category object without a caption
label: its JobRecord gets one empty-string category entry. -/
def emptyCapItem : Py := .dict [("job", .dict [
  ("JobCategory", .list [.dict []])])]

/-- Every key of a counter dict is truthy (in particular not the empty
string). -/
def truthyKeys (m : List (Py × Nat)) : Prop :=
  ∀ p ∈ m, pyTruthy p.1 = true

/-- Every key of a counter dict is truthy and not the "N/A" default. -/
def truthyKeysNA (m : List (Py × Nat)) : Prop :=
  ∀ p ∈ m, pyTruthy p.1 = true ∧ pyEq p.1 (.str "N/A") = false

/-- The key invariant of the five counters: all keys truthy, and the
education/experience keys additionally not "N/A". -/
def countersOK (c : Counters) : Prop :=
  truthyKeys c.cats ∧ truthyKeys c.emps ∧ truthyKeys c.locs ∧
  truthyKeysNA c.edus ∧ truthyKeysNA c.exps

/-!
Helper lemmas.
-/

/-- Destructor for a successful Except bind. -/
theorem exceptBind_ok {α β : Type} {x : Except String α} {f : α → Except String β}
    {b : β} (h : (x >>= f) = .ok b) : ∃ a, x = .ok a ∧ f a = .ok b := by
  cases x with
  | ok a => exact ⟨a, rfl, h⟩
  | error e => simp [Bind.bind, Except.bind] at h

/-- A dict key with a stored value passes the membership test. -/
theorem dictLookup_any {d : List (String × Py)} {k : String} {v : Py}
    (h : dictLookup d k = some v) : d.any (fun e => e.1 == k) = true := by
  induction d with
  | nil => simp [dictLookup] at h
  | cons e rest ih =>
    cases he : e.1 == k with
    | true => simp [List.any_cons, he]
    | false =>
      simp only [dictLookup, List.find?] at h ih ⊢
      rw [he] at h
      simp only [List.any_cons, he, Bool.false_or]
      exact ih h

/-- Indexing a dict at a stored key. -/
theorem pyIndex_dict {d : List (String × Py)} {k : String} {v : Py}
    (h : dictLookup d k = some v) : pyIndex (.dict d) k = .ok v := by
  simp [pyIndex, h]

/-- get on a dict with a stored key. -/
theorem pyGet_dict_some {d : List (String × Py)} {k : String} {v dflt : Py}
    (h : dictLookup d k = some v) : pyGet (.dict d) k dflt = .ok v := by
  simp [pyGet, h]

/-- get on a dict with an absent key returns the default. -/
theorem pyGet_dict_none {d : List (String × Py)} {k : String} {dflt : Py}
    (h : dictLookup d k = Option.none) : pyGet (.dict d) k dflt = .ok dflt := by
  simp [pyGet, h]

/-!
C1.
-/

/-- C1: for every input and every behavior of the remote endpoint,
search_jobs_api returns a result dict rather than raising: a
RequestException (non-2xx status such as 503, connection failure, timeout)
becomes success False with error "API request failed: " plus the exception
text, any other exception before or during parsing becomes success False
with error "Unexpected error: " plus the exception text, and no other
outcome than a failure or success dict exists. -/
theorem c1_search_never_raises (keywords : String) (page per_page_count : Int)
    (remote : List (String × Py) → FetchOutcome) :
    ((∃ e, search_jobs_api keywords page per_page_count remote = .failure e) ∨
     (∃ s, search_jobs_api keywords page per_page_count remote = .success s))
    ∧ (∀ msg, remote (requestParams keywords page per_page_count) =
          .requestException msg →
        search_jobs_api keywords page per_page_count remote =
          .failure ("API request failed: " ++ msg))
    ∧ (∀ msg, remote (requestParams keywords page per_page_count) =
          .otherException msg →
        search_jobs_api keywords page per_page_count remote =
          .failure ("Unexpected error: " ++ msg))
    ∧ (∀ json msg, remote (requestParams keywords page per_page_count) = .body json →
        buildSuccess page json = .error msg →
        search_jobs_api keywords page per_page_count remote =
          .failure ("Unexpected error: " ++ msg)) := by
  refine ⟨?_, ?_, ?_, ?_⟩
  · unfold search_jobs_api
    cases remote (requestParams keywords page per_page_count) with
    | requestException m => exact .inl ⟨_, rfl⟩
    | otherException m => exact .inl ⟨_, rfl⟩
    | body j =>
      cases hb : buildSuccess page j with
      | ok p => exact .inr ⟨p, by simp [hb]⟩
      | error e => exact .inl ⟨"Unexpected error: " ++ e, by simp [hb]⟩
  · intro msg h
    simp [search_jobs_api, h]
  · intro msg h
    simp [search_jobs_api, h]
  · intro json msg h hb
    simp [search_jobs_api, h, hb]

/-- Witness for C1: a 503 raised by raise_for_status yields the failure
dict with the transport text embedded, with no exception. -/
theorem c1_witness :
    search_jobs_api "cook" 1 10
        (fun _ => .requestException "503 Server Error: Service Unavailable") =
      .failure "API request failed: 503 Server Error: Service Unavailable" :=
  (c1_search_never_raises "cook" 1 10 _).2.1
    "503 Server Error: Service Unavailable" rfl

/-!
C7.
-/

/-- C7: calculate_job_statistics propagates a failed underlying search
unchanged: it returns the failure shape with the verbatim error string,
and that is the only way its result is a failure dict. -/
theorem c7_failure_propagation (keywords : String) (sample_size : Int)
    (remote : List (String × Py) → FetchOutcome) (e : String) :
    search_jobs_api keywords 1 (min sample_size 20) remote = .failure e ↔
      calculate_job_statistics keywords sample_size remote = .ok (.failure e) := by
  constructor
  · intro h
    simp [calculate_job_statistics, h]
  · intro h
    unfold calculate_job_statistics at h
    cases hs : search_jobs_api keywords 1 (min sample_size 20) remote with
    | failure e2 =>
      rw [hs] at h
      simp only [Except.ok.injEq, StatsOutput.failure.injEq] at h
      rw [h]
    | success s =>
      rw [hs] at h
      cases hb : buildCounters s.jobs with
      | error e2 => simp [hb] at h
      | ok c => simp [hb] at h

/-- Witness for C7 at a concrete failing remote. -/
theorem c7_witness :
    calculate_job_statistics "cook" 5 (fun _ => .requestException "boom") =
      .ok (.failure "API request failed: boom") :=
  (c7_failure_propagation "cook" 5 (fun _ => .requestException "boom")
    "API request failed: boom").mp rfl

/-!
C9.
-/

/-- C9: calculate_job_statistics is a pure function of its inputs and of
the single remote response: it consults the remote only at the one
transmitted parameter list (two calls whose remotes agree there agree
entirely), and on success the statistics map is determined by the fetched
job sample alone. -/
theorem c9_deterministic :
    (∀ (keywords : String) (sample_size : Int)
       (r1 r2 : List (String × Py) → FetchOutcome),
       r1 (requestParams keywords 1 (min sample_size 20)) =
         r2 (requestParams keywords 1 (min sample_size 20)) →
       calculate_job_statistics keywords sample_size r1 =
         calculate_job_statistics keywords sample_size r2)
    ∧ (∀ (keywords : String) (sample_size : Int)
         (r1 r2 : List (String × Py) → FetchOutcome)
         (s1 s2 : SearchSuccess) (st1 st2 : StatsSuccess),
       search_jobs_api keywords 1 (min sample_size 20) r1 = .success s1 →
       search_jobs_api keywords 1 (min sample_size 20) r2 = .success s2 →
       s1.jobs = s2.jobs →
       calculate_job_statistics keywords sample_size r1 = .ok (.success st1) →
       calculate_job_statistics keywords sample_size r2 = .ok (.success st2) →
       st1.statistics = st2.statistics ∧ st1.jobs_analyzed = st2.jobs_analyzed
         ∧ st1.keyword = st2.keyword) := by
  constructor
  · intro keywords sample_size r1 r2 h
    simp only [calculate_job_statistics, search_jobs_api, h]
  · intro keywords sample_size r1 r2 s1 s2 st1 st2 h1 h2 hjobs hc1 hc2
    unfold calculate_job_statistics at hc1 hc2
    rw [h1] at hc1
    rw [h2] at hc2
    dsimp only at hc1 hc2
    rw [hjobs] at hc1
    cases hb : buildCounters s2.jobs with
    | error e =>
      rw [hb] at hc1
      exact absurd hc1 (by simp)
    | ok c =>
      rw [hb] at hc1 hc2
      simp only [Except.ok.injEq, StatsOutput.success.injEq] at hc1 hc2
      rw [← hc1, ← hc2]
      exact ⟨rfl, rfl, rfl⟩

/-- Witness for C9: two syntactically different remotes that agree on the
transmitted parameters give identical results. -/
theorem c9_witness :
    calculate_job_statistics "cook" 10 (fun _ => .body pagerBody) =
      calculate_job_statistics "cook" 10
        (fun p => if p.isEmpty then .requestException "never" else .body pagerBody) :=
  c9_deterministic.1 "cook" 10 _ _ rfl

/-- A passed membership test produces a stored value. -/
theorem any_dictLookup {d : List (String × Py)} {k : String}
    (h : d.any (fun e => e.1 == k) = true) : ∃ v, dictLookup d k = some v := by
  induction d with
  | nil => simp at h
  | cons e rest ih =>
    cases he : e.1 == k with
    | true => exact ⟨e.2, by simp [dictLookup, List.find?, he]⟩
    | false =>
      simp only [List.any_cons, he, Bool.false_or] at h
      obtain ⟨v, hv⟩ := ih h
      exact ⟨v, by simpa [dictLookup, List.find?, he] using hv⟩

/-- The fields a successful parse reports when the decoded body carries
the concrete pager block record_count 150, page 1, page_count 8. -/
theorem buildSuccess_pager {bd dd pd : List (String × Py)} (page : Int)
    (hdata : dictLookup bd "data" = some (.dict dd))
    (hpager : dictLookup dd "pager" = some (.dict pd))
    (h150 : dictLookup pd "record_count" = some (.int 150))
    (h1 : dictLookup pd "page" = some (.int 1))
    (h8 : dictLookup pd "page_count" = some (.int 8)) :
    ∀ p, buildSuccess page (.dict bd) = .ok p →
      p.total_jobs = .int 150 ∧ p.current_page = .int 1 ∧ p.total_pages = .int 8 := by
  intro p hp
  unfold buildSuccess at hp
  simp only [pyContains, pyIndex, pyGet, dictLookup_any hdata, dictLookup_any hpager,
    hdata, hpager, h150, h1, h8, Option.getD, Bind.bind, Except.bind, if_true,
    pure, Except.pure] at hp
  cases hr : dd.any (fun e => e.1 == "result") with
  | false =>
    rw [hr] at hp
    simp only [Bool.false_eq_true, if_false, Except.ok.injEq] at hp
    rw [← hp]
    exact ⟨rfl, rfl, rfl⟩
  | true =>
    rw [hr] at hp
    simp only [eq_self_iff_true, if_true] at hp
    cases hres : dictLookup dd "result" with
    | none => rw [hres] at hp; simp at hp
    | some v =>
      rw [hres] at hp
      dsimp only at hp
      cases hit : pyIterate v with
      | error e => rw [hit] at hp; simp at hp
      | ok items =>
        rw [hit] at hp
        dsimp only at hp
        cases hm : items.mapM parseItem with
        | error e => rw [hm] at hp; simp at hp
        | ok jobs =>
          rw [hm] at hp
          simp only [Except.ok.injEq] at hp
          rw [← hp]
          exact ⟨rfl, rfl, rfl⟩

/-- C2: the per_page_count transmitted to the remote endpoint is
min(per_page_count, 20) with no minimum clamp; search("cook", 1, 25)
transmits per_page_count 20; and whenever the remote body's pager block
reports record_count 150, page 1, page_count 8 and the search succeeds,
the result reports total_jobs 150, current_page 1, total_pages 8. -/
theorem c2_clamp_and_pager :
    (∀ (keywords : String) (page count : Int),
      (requestParams keywords page count).find? (fun e => e.1 == "per_page_count") =
        some ("per_page_count", .int (min count 20)))
    ∧ ((requestParams "cook" 1 25).find? (fun e => e.1 == "per_page_count") =
        some ("per_page_count", .int 20))
    ∧ (∀ (bd dd pd : List (String × Py))
         (remote : List (String × Py) → FetchOutcome) (s : SearchSuccess)
         (keywords : String) (page count : Int),
        remote (requestParams keywords page count) = .body (.dict bd) →
        dictLookup bd "data" = some (.dict dd) →
        dictLookup dd "pager" = some (.dict pd) →
        dictLookup pd "record_count" = some (.int 150) →
        dictLookup pd "page" = some (.int 1) →
        dictLookup pd "page_count" = some (.int 8) →
        search_jobs_api keywords page count remote = .success s →
        s.total_jobs = .int 150 ∧ s.current_page = .int 1 ∧ s.total_pages = .int 8) := by
  refine ⟨?_, ?_, ?_⟩
  · intro keywords page count
    simp [requestParams, List.find?]
  · rfl
  · intro bd dd pd remote s keywords page count hrem hdata hpager h150 h1 h8 hs
    unfold search_jobs_api at hs
    rw [hrem] at hs
    dsimp only at hs
    cases hb : buildSuccess page (.dict bd) with
    | error e => rw [hb] at hs; exact absurd hs (by simp)
    | ok p =>
      rw [hb] at hs
      simp only [SearchOutput.success.injEq] at hs
      rw [← hs]
      exact buildSuccess_pager page hdata hpager h150 h1 h8 p hb

/-- Witness for C2's pager scenario at the concrete fixture body. -/
theorem c2_witness :
    (⟨Py.int 150, Py.int 1, Py.int 8, 0, []⟩ : SearchSuccess).total_jobs = .int 150
    ∧ (⟨Py.int 150, Py.int 1, Py.int 8, 0, []⟩ : SearchSuccess).current_page = .int 1
    ∧ (⟨Py.int 150, Py.int 1, Py.int 8, 0, []⟩ : SearchSuccess).total_pages = .int 8 :=
  c2_clamp_and_pager.2.2
    [("data", .dict [("pager", .dict [("record_count", .int 150), ("page", .int 1),
        ("page_count", .int 8)]), ("result", .list [])])]
    [("pager", .dict [("record_count", .int 150), ("page", .int 1),
        ("page_count", .int 8)]), ("result", .list [])]
    [("record_count", .int 150), ("page", .int 1), ("page_count", .int 8)]
    (fun _ => .body pagerBody) ⟨.int 150, .int 1, .int 8, 0, []⟩
    "cook" 1 25 rfl rfl rfl rfl rfl rfl rfl

/-!
C8.
-/

/-- C8 as stated is refuted: the client trusts the remote. With
sample_size 1 the request transmits per_page_count 1, but a remote answer
carrying two result items and a pager record_count of 0 is accepted as-is:
jobs_analyzed is 2, exceeding both min(sample_size, 20) = 1 and
total_jobs_in_market = 0. -/
theorem c8_counterexample :
    ∃ st : StatsSuccess,
      calculate_job_statistics "x" 1 (fun _ => .body overfullBody) =
        .ok (.success st)
      ∧ st.jobs_analyzed = 2
      ∧ st.total_jobs_in_market = .int 0
      ∧ ¬((2 : Int) ≤ min 1 20)
      ∧ ¬((2 : Int) ≤ 0) :=
  ⟨_, rfl, rfl, rfl, by decide, by decide⟩

/-- C8 amended: jobs_analyzed always equals the number of JobRecords the
underlying search returned, and the two bounds of the claim hold under the
well-behaved-remote hypotheses they implicitly assume: when the returned
sample is no larger than min(sample_size, 20), and when the reported total
is at least the sample size. -/
theorem c8_amended (keywords : String) (sample_size : Int)
    (remote : List (String × Py) → FetchOutcome) (s : SearchSuccess)
    (st : StatsSuccess)
    (hs : search_jobs_api keywords 1 (min sample_size 20) remote = .success s)
    (hc : calculate_job_statistics keywords sample_size remote = .ok (.success st)) :
    st.jobs_analyzed = s.jobs.length
    ∧ st.total_jobs_in_market = s.total_jobs
    ∧ ((s.jobs.length : Int) ≤ min sample_size 20 →
        (st.jobs_analyzed : Int) ≤ min sample_size 20)
    ∧ (∀ t : Int, s.total_jobs = .int t → (s.jobs.length : Int) ≤ t →
        st.total_jobs_in_market = .int t ∧ (st.jobs_analyzed : Int) ≤ t) := by
  unfold calculate_job_statistics at hc
  rw [hs] at hc
  dsimp only at hc
  cases hb : buildCounters s.jobs with
  | error e => rw [hb] at hc; exact absurd hc (by simp)
  | ok c =>
    rw [hb] at hc
    simp only [Except.ok.injEq, StatsOutput.success.injEq] at hc
    rw [← hc]
    exact ⟨rfl, rfl, fun h => h, fun t ht hle => ⟨ht, hle⟩⟩

/-- Witness for the amended C8 at a well-behaved concrete remote. -/
theorem c8_witness :
    ∃ (s : SearchSuccess) (st : StatsSuccess),
      search_jobs_api "chef" 1 (min 20 20) (fun _ => .body twoJobsBody) =
        .success s
      ∧ calculate_job_statistics "chef" 20 (fun _ => .body twoJobsBody) =
        .ok (.success st)
      ∧ st.jobs_analyzed = s.jobs.length
      ∧ st.total_jobs_in_market = s.total_jobs :=
  ⟨_, _, rfl, rfl,
    (c8_amended "chef" 20 (fun _ => .body twoJobsBody) _ _ rfl rfl).1,
    (c8_amended "chef" 20 (fun _ => .body twoJobsBody) _ _ rfl rfl).2.1⟩

/-!
C3.
-/

/-- Python equality with a string on the right holds only for that very
string. -/
theorem pyEq_str_iff (c : Py) (s : String) : pyEq c (.str s) = true ↔ c = .str s := by
  cases c <;> simp [pyEq]

/-- Python equality with a string on the left holds only for that very
string. -/
theorem str_pyEq_iff (c : Py) (s : String) : pyEq (.str s) c = true ↔ c = .str s := by
  cases c with
  | str t =>
    simp only [pyEq, beq_iff_eq, Py.str.injEq]
    exact eq_comm
  | none => simp [pyEq]
  | bool b => simp [pyEq]
  | int n => simp [pyEq]
  | list xs => simp [pyEq]
  | dict d => simp [pyEq]

/-- Python equality is reflexive on strings. -/
theorem pyEq_refl_str (s : String) : pyEq (.str s) (.str s) = true := by
  simp [pyEq]

/-- One counter increment changes the reported count of a string key by
one exactly when the incremented key is that string. -/
theorem bumpKey_lookup_str (m : List (Py × Nat)) (c : Py) (s : String) :
    lookupCount (bumpKey m c) (.str s) =
      lookupCount m (.str s) + (if pyEq c (.str s) then 1 else 0) := by
  induction m with
  | nil =>
    cases hq : pyEq c (.str s) <;> simp [bumpKey, lookupCount, hq]
  | cons e rest ih =>
    obtain ⟨k2, n⟩ := e
    cases hk : pyEq k2 c with
    | true =>
      cases hks : pyEq k2 (.str s) with
      | true =>
        have hc : c = .str s := by
          have hk2 : k2 = .str s := (pyEq_str_iff k2 s).mp hks
          rw [hk2] at hk
          exact (str_pyEq_iff c s).mp hk
        simp [bumpKey, hk, lookupCount, hks, hc, pyEq_refl_str]
      | false =>
        have hcq : pyEq c (.str s) = false := by
          cases hq : pyEq c (.str s)
          · rfl
          · have hc : c = .str s := (pyEq_str_iff c s).mp hq
            rw [hc] at hk
            simp [hk] at hks
        simp [bumpKey, hk, lookupCount, hks, hcq]
    | false =>
      cases hks : pyEq k2 (.str s) with
      | true =>
        have hcq : pyEq c (.str s) = false := by
          cases hq : pyEq c (.str s)
          · rfl
          · have hc : c = .str s := (pyEq_str_iff c s).mp hq
            have hk2 : k2 = .str s := (pyEq_str_iff k2 s).mp hks
            rw [hc, hk2] at hk
            simp [pyEq] at hk
        simp [bumpKey, hk, lookupCount, hks, hcq]
      | false =>
        simp [bumpKey, hk, lookupCount, hks, ih]

/-- Counting a multi-valued taxonomy list succeeds when every truthy entry
is hashable, and then the reported count of every non-empty string key
grows by exactly the number of occurrences of that key in the list. -/
theorem countMulti_ok_lookup (l : List Py) :
    ∀ (m : List (Py × Nat)) (s : String), s ≠ "" →
    (∀ c ∈ l, pyTruthy c = true → pyHashable c = true) →
    ∃ m2, countMulti m l = .ok m2 ∧
      lookupCount m2 (.str s) =
        lookupCount m (.str s) + (l.filter (fun c => pyEq c (.str s))).length := by
  induction l with
  | nil =>
    intro m s hs hl
    exact ⟨m, rfl, by simp⟩
  | cons c cs ih =>
    intro m s hs hl
    cases ht : pyTruthy c with
    | false =>
      have hcne : pyEq c (.str s) = false := by
        cases hq : pyEq c (.str s)
        · rfl
        · have hc : c = .str s := (pyEq_str_iff c s).mp hq
          rw [hc] at ht
          simp only [pyTruthy, Bool.not_eq_false'] at ht
          exact absurd ((String.isEmpty_iff s).mp ht) hs
      obtain ⟨m2, hm2, hcount⟩ :=
        ih m s hs (fun x hx => hl x (List.mem_cons_of_mem _ hx))
      refine ⟨m2, ?_, ?_⟩
      · simp [countMulti, ht, hm2]
      · rw [hcount]
        simp [List.filter_cons, hcne]
    | true =>
      have hh : pyHashable c = true := hl c (List.mem_cons_self _ _) ht
      obtain ⟨m2, hm2, hcount⟩ :=
        ih (bumpKey m c) s hs (fun x hx => hl x (List.mem_cons_of_mem _ hx))
      refine ⟨m2, ?_, ?_⟩
      · simp [countMulti, ht, bump, hh, hm2]
      · rw [hcount, bumpKey_lookup_str]
        cases hq : pyEq c (.str s) with
        | true =>
          simp [List.filter_cons, hq]
          omega
        | false => simp [List.filter_cons, hq]

/-- Counting a single-valued field succeeds whenever the value it would
count is hashable. -/
theorem countSingle_ok (m : List (Py × Nat)) (v : Py)
    (h : (!(pyTruthy v && !(pyEq v (.str "N/A"))) || pyHashable v) = true) :
    ∃ m2, countSingle m v = .ok m2 := by
  unfold countSingle
  cases hc : (pyTruthy v && !(pyEq v (.str "N/A"))) with
  | false => exact ⟨m, by simp [hc]⟩
  | true =>
    rw [hc] at h
    simp only [Bool.not_true, Bool.false_or] at h
    exact ⟨bumpKey m v, by simp [hc, bump, h]⟩

/-- C3: the contribution of one job to the multi-valued counters.  For a
job whose counted values are hashable (so that the loop body completes),
the count of every non-empty string key in the category, employment-type
and location counters grows by exactly the number of occurrences of that
key in that job's corresponding list (duplicates counted, zero occurrences
contributing zero increments), and a job with no categories leaves the
category counter untouched. -/
theorem c3_increment_per_occurrence (st : Counters) (job : JobRecord)
    (s : String) (hs : s ≠ "") (hok : jobCountable job = true) :
    ∃ st2, statsStep st job = .ok st2
      ∧ lookupCount st2.cats (.str s) =
          lookupCount st.cats (.str s) +
            (job.categories.filter (fun c => pyEq c (.str s))).length
      ∧ lookupCount st2.emps (.str s) =
          lookupCount st.emps (.str s) +
            (job.employment_type.filter (fun c => pyEq c (.str s))).length
      ∧ lookupCount st2.locs (.str s) =
          lookupCount st.locs (.str s) +
            (job.location.filter (fun c => pyEq c (.str s))).length
      ∧ (job.categories = [] → st2.cats = st.cats) := by
  simp only [jobCountable, Bool.and_eq_true, List.all_eq_true] at hok
  obtain ⟨⟨⟨⟨hcats, hemps⟩, hlocs⟩, hedu⟩, hexp⟩ := hok
  have hcats2 : ∀ c ∈ job.categories, pyTruthy c = true → pyHashable c = true := by
    intro c hc ht
    have := hcats c hc
    simp [ht] at this
    exact this
  have hemps2 : ∀ c ∈ job.employment_type, pyTruthy c = true → pyHashable c = true := by
    intro c hc ht
    have := hemps c hc
    simp [ht] at this
    exact this
  have hlocs2 : ∀ c ∈ job.location, pyTruthy c = true → pyHashable c = true := by
    intro c hc ht
    have := hlocs c hc
    simp [ht] at this
    exact this
  obtain ⟨mc, hmc, hcc⟩ := countMulti_ok_lookup job.categories st.cats s hs hcats2
  obtain ⟨me, hme, hec⟩ := countMulti_ok_lookup job.employment_type st.emps s hs hemps2
  obtain ⟨ml, hml, hlc⟩ := countMulti_ok_lookup job.location st.locs s hs hlocs2
  obtain ⟨md, hmd⟩ := countSingle_ok st.edus job.education hedu
  obtain ⟨mx, hmx⟩ := countSingle_ok st.exps job.experience hexp
  refine ⟨⟨mc, me, ml, md, mx⟩, ?_, hcc, hec, hlc, ?_⟩
  · simp [statsStep, hmc, hme, hml, hmd, hmx, Bind.bind, Except.bind, pure, Except.pure]
  · intro hnil
    rw [hnil] at hmc
    simp only [countMulti] at hmc
    injection hmc with h2
    exact h2.symm

/-- Witness for C3: a job with categories A, B, A contributes two
increments to key A and one to key B, starting from fresh counters. -/
theorem c3_witness :
    ∃ st2, statsStep ⟨[], [], [], [], []⟩
        ⟨.str "", .str "N/A", .str "N/A", "", [.str "A", .str "B", .str "A"],
         [], [], Option.none, .str "N/A", .str "N/A", .str "N/A", .str "N/A",
         .list [], .str "N/A", .str "N/A", .str ""⟩ = .ok st2
      ∧ lookupCount st2.cats (.str "A") =
          lookupCount ([] : List (Py × Nat)) (.str "A") +
            ([Py.str "A", .str "B", .str "A"].filter
              (fun c => pyEq c (.str "A"))).length
      ∧ lookupCount st2.emps (.str "A") =
          lookupCount ([] : List (Py × Nat)) (.str "A") +
            (([] : List Py).filter (fun c => pyEq c (.str "A"))).length
      ∧ lookupCount st2.locs (.str "A") =
          lookupCount ([] : List (Py × Nat)) (.str "A") +
            (([] : List Py).filter (fun c => pyEq c (.str "A"))).length
      ∧ ([Py.str "A", .str "B", .str "A"] = ([] : List Py) →
          st2.cats = ([] : List (Py × Nat))) :=
  c3_increment_per_occurrence ⟨[], [], [], [], []⟩
    ⟨.str "", .str "N/A", .str "N/A", "", [.str "A", .str "B", .str "A"],
     [], [], Option.none, .str "N/A", .str "N/A", .str "N/A", .str "N/A",
     .list [], .str "N/A", .str "N/A", .str ""⟩
    "A" (by decide) (by rfl)

/-!
C4.
-/

/-- Stable descending insertion inserts its element and keeps the rest. -/
theorem insertDesc_perm (x : Py × Nat) (l : List (Py × Nat)) :
    (insertDesc x l).Perm (x :: l) := by
  induction l with
  | nil => exact List.Perm.refl _
  | cons y ys ih =>
    by_cases h : x.2 < y.2
    · simp only [insertDesc, if_pos h]
      exact (ih.cons y).trans (List.Perm.swap x y ys)
    · simp only [insertDesc, if_neg h]
      exact List.Perm.refl _

/-- The ranking permutes the counter entries. -/
theorem sortDesc_perm (m : List (Py × Nat)) : (sortDesc m).Perm m := by
  induction m with
  | nil => exact List.Perm.refl _
  | cons x xs ih => exact (insertDesc_perm x (sortDesc xs)).trans (ih.cons x)

/-- Stable descending insertion preserves descending order by count. -/
theorem insertDesc_sorted (x : Py × Nat) (l : List (Py × Nat))
    (h : l.Pairwise (fun a b => b.2 ≤ a.2)) :
    (insertDesc x l).Pairwise (fun a b => b.2 ≤ a.2) := by
  induction l with
  | nil => simp [insertDesc]
  | cons y ys ih =>
    rcases List.pairwise_cons.mp h with ⟨hy, hys⟩
    by_cases hlt : x.2 < y.2
    · simp only [insertDesc, if_pos hlt]
      refine List.pairwise_cons.mpr ⟨?_, ih hys⟩
      intro z hz
      rcases List.mem_cons.mp ((insertDesc_perm x ys).mem_iff.mp hz) with rfl | hz3
      · exact Nat.le_of_lt hlt
      · exact hy z hz3
    · simp only [insertDesc, if_neg hlt]
      refine List.pairwise_cons.mpr ⟨?_, h⟩
      intro z hz
      rcases List.mem_cons.mp hz with rfl | hz3
      · omega
      · exact Nat.le_trans (hy z hz3) (by omega)

/-- The ranked list is descending by count. -/
theorem sortDesc_sorted (m : List (Py × Nat)) :
    (sortDesc m).Pairwise (fun a b => b.2 ≤ a.2) := by
  induction m with
  | nil => simp [sortDesc]
  | cons x xs ih => exact insertDesc_sorted x (sortDesc xs) ih

/-- Entries of any fixed count keep their relative order through a stable
descending insertion. -/
theorem insertDesc_filter (x : Py × Nat) (l : List (Py × Nat)) (n : Nat) :
    (insertDesc x l).filter (fun e => e.2 == n) =
      if x.2 == n then x :: l.filter (fun e => e.2 == n)
      else l.filter (fun e => e.2 == n) := by
  induction l with
  | nil =>
    cases hx : (x.2 == n) <;> simp [insertDesc, List.filter, hx]
  | cons y ys ih =>
    by_cases hlt : x.2 < y.2
    · simp only [insertDesc, if_pos hlt, List.filter_cons, ih]
      cases hx : (x.2 == n) with
      | true =>
        have hyn : (y.2 == n) = false := by
          have hxn : x.2 = n := by simpa using hx
          simp only [beq_eq_false_iff_ne, ne_eq]
          omega
        simp [hx, hyn]
      | false => simp [hx]
    · simp only [insertDesc, if_neg hlt, List.filter_cons]

/-- Stability: for every count value, the ranked list restricted to that
count equals the counter list (in first-encounter order) restricted to
that count. -/
theorem sortDesc_filter (m : List (Py × Nat)) (n : Nat) :
    (sortDesc m).filter (fun e => e.2 == n) = m.filter (fun e => e.2 == n) := by
  induction m with
  | nil => rfl
  | cons x xs ih =>
    simp only [sortDesc, insertDesc_filter, ih]
    rw [List.filter_cons]

/-- C4: top_categories and top_locations are the counter tables ranked by
descending count with ties kept in first-encounter order (a stable sort)
and truncated to 5 entries: the published lists are take 5 of the stable
descending ranking, the ranking is descending and a permutation of the
counter, every fixed-count slice keeps its original order, the published
lists never exceed 5 entries, and when fewer than 5 distinct values exist
every one of them is included. -/
theorem c4_top5_stable_ranking (c : Counters) :
    ((mkStatistics c).top_categories = (sortDesc c.cats).take 5
     ∧ (mkStatistics c).top_locations = (sortDesc c.locs).take 5)
    ∧ ∀ m : List (Py × Nat),
        (sortDesc m).Pairwise (fun a b => b.2 ≤ a.2)
        ∧ (sortDesc m).Perm m
        ∧ (∀ n : Nat, (sortDesc m).filter (fun e => e.2 == n) =
            m.filter (fun e => e.2 == n))
        ∧ ((sortDesc m).take 5).length ≤ 5
        ∧ (m.length < 5 → ((sortDesc m).take 5).Perm m) := by
  refine ⟨⟨rfl, rfl⟩, ?_⟩
  intro m
  refine ⟨sortDesc_sorted m, sortDesc_perm m, sortDesc_filter m, ?_, ?_⟩
  · simp [List.length_take]
  · intro hlen
    have hle : (sortDesc m).length ≤ 5 := by
      rw [(sortDesc_perm m).length_eq]
      omega
    rw [List.take_of_length_le hle]
    exact sortDesc_perm m

/-- Witness for C4 at a concrete counter list with a tie. -/
theorem c4_witness :
    ((sortDesc [(Py.str "A", 1), (Py.str "B", 2), (Py.str "C", 1)]).take 5).Perm
      [(Py.str "A", 1), (Py.str "B", 2), (Py.str "C", 1)] :=
  ((c4_top5_stable_ranking ⟨[], [], [], [], []⟩).2
    [(Py.str "A", 1), (Py.str "B", 2), (Py.str "C", 1)]).2.2.2.2 (by decide)


/-!
C5.
-/

/-- Normal form of the salary extraction over a job dict: every get on the
job dict itself succeeds, leaving the hide-flag test, the caption fetches
and the formatting. -/
theorem salaryInfo_dict (jd : List (String × Py)) :
    salaryInfo (.dict jd) =
      (if pyTruthy ((dictLookup jd "id_Job_Donotdisplaysalary").getD (.int 0))
       then .ok Option.none
       else do
         let cap ← pyGet ((dictLookup jd "Salaryrange").getD (.dict []))
           "caption" .none
         if pyTruthy cap then do
           let cur ← pyGet ((dictLookup jd "id_Job_Currency").getD (.dict []))
             "caption" (.str "SGD")
           let iv ← pyGet ((dictLookup jd "id_Job_Interval").getD (.dict []))
             "caption" (.str "Month")
           pure (Option.some (pyStr cur ++ " " ++ pyStr cap ++ " per " ++ pyStr iv))
         else pure Option.none) := by
  unfold salaryInfo
  simp only [pyGet, Bind.bind, Except.bind, pure, Except.pure]

/-- A string's emptiness test is its equality test with the empty
string. -/
theorem isEmpty_eq_beq (t : String) : t.isEmpty = (t == "") := by
  cases ht : t.isEmpty with
  | true =>
    have : t = "" := (String.isEmpty_iff t).mp ht
    simp [this]
  | false =>
    cases hq : t == "" with
    | true =>
      have : t = "" := by simpa using hq
      rw [this] at ht
      simp [String.isEmpty] at ht
    | false => rfl

/-- Fetching the caption of a well-shaped label field with a string
default returns the spec-side label string. -/
theorem labelGet (o : Option Py) (fb : String) (h : capOKO o = true) :
    pyGet (o.getD (.dict [])) "caption" (.str fb) =
      .ok (.str (specLabelO o fb)) := by
  cases o with
  | none => simp [pyGet, dictLookup, specLabelO]
  | some v =>
    cases v with
    | dict d =>
      simp only [capOKO, capStrOrAbsent] at h
      cases hcap : dictLookup d "caption" with
      | none => simp [pyGet, specLabelO, hcap]
      | some w =>
        rw [hcap] at h
        cases w with
        | str t => simp [pyGet, specLabelO, hcap]
        | none => simp at h
        | bool b => simp at h
        | int n => simp at h
        | list xs => simp at h
        | dict dd => simp at h
    | none => simp [capOKO] at h
    | bool b => simp [capOKO] at h
    | int n => simp [capOKO] at h
    | str t => simp [capOKO] at h
    | list xs => simp [capOKO] at h

/-- Fetching the Salaryrange caption (default None) of a well-shaped field
yields a value whose truthiness is the non-emptiness of the spec-side
range label, and which is that label when truthy. -/
theorem rangeGet (o : Option Py) (h : capOKO o = true) :
    ∃ capv, pyGet (o.getD (.dict [])) "caption" .none = .ok capv
      ∧ pyTruthy capv = !(specLabelO o "" == "")
      ∧ (pyTruthy capv = true → capv = .str (specLabelO o "")) := by
  cases o with
  | none =>
    refine ⟨.none, by simp [pyGet, dictLookup], ?_, ?_⟩
    · simp [pyTruthy, specLabelO]
    · simp [pyTruthy]
  | some v =>
    cases v with
    | dict d =>
      simp only [capOKO, capStrOrAbsent] at h
      cases hcap : dictLookup d "caption" with
      | none =>
        refine ⟨.none, by simp [pyGet, hcap], ?_, ?_⟩
        · simp [pyTruthy, specLabelO, hcap]
        · simp [pyTruthy]
      | some w =>
        rw [hcap] at h
        cases w with
        | str t =>
          refine ⟨.str t, by simp [pyGet, hcap], ?_, ?_⟩
          · simp [pyTruthy, specLabelO, hcap, isEmpty_eq_beq]
          · intro ht
            simp [specLabelO, hcap]
        | none => simp at h
        | bool b => simp at h
        | int n => simp at h
        | list xs => simp at h
        | dict dd => simp at h
    | none => simp [capOKO] at h
    | bool b => simp [capOKO] at h
    | int n => simp [capOKO] at h
    | str t => simp [capOKO] at h
    | list xs => simp [capOKO] at h

/-- C5: the salary rule.  A truthy hide-salary flag forces an absent
salary regardless of any salary range; under the shape the spec assumes
(nested labels absent or strings) the computed salary agrees exactly with
the spec-worded rule (present iff the flag is falsy and the range label
non-empty, formatted with SGD and Month fallbacks when labels are absent);
and the salary field of every parsed JobRecord is exactly what the salary
extraction returns on that item's job dict. -/
theorem c5_salary_rule :
    (∀ jd : List (String × Py),
       pyTruthy ((dictLookup jd "id_Job_Donotdisplaysalary").getD (.int 0)) = true →
       salaryInfo (.dict jd) = .ok Option.none)
    ∧ (∀ jd : List (String × Py), salaryFieldsOK jd = true →
       salaryInfo (.dict jd) = .ok (salarySpecC5 jd))
    ∧ (∀ (item : List (String × Py)) (r : JobRecord),
       parseItem (.dict item) = .ok r →
       salaryInfo ((dictLookup item "job").getD (.dict [])) = .ok r.salary) := by
  refine ⟨?_, ?_, ?_⟩
  · intro jd h
    rw [salaryInfo_dict, if_pos h]
  · intro jd hOK
    simp only [salaryFieldsOK, Bool.and_eq_true] at hOK
    obtain ⟨⟨h1, h2⟩, h3⟩ := hOK
    rw [salaryInfo_dict]
    unfold salarySpecC5
    cases hflag : pyTruthy ((dictLookup jd "id_Job_Donotdisplaysalary").getD (.int 0)) with
    | true => simp [hflag]
    | false =>
      simp only [hflag, Bool.false_eq_true, if_false]
      obtain ⟨capv, hcapv, htr, hstr⟩ := rangeGet (dictLookup jd "Salaryrange") h1
      rw [hcapv]
      simp only [Bind.bind, Except.bind]
      cases hq : (specLabelO (dictLookup jd "Salaryrange") "" == "") with
      | true =>
        rw [hq] at htr
        simp only [Bool.not_true] at htr
        have hrange : specLabel jd "Salaryrange" "" = "" := by
          simpa [specLabel] using hq
        simp [htr, hrange, pure, Except.pure]
      | false =>
        rw [hq] at htr
        simp only [Bool.not_false] at htr
        have hcv : capv = .str (specLabelO (dictLookup jd "Salaryrange") "") := hstr htr
        have hrange : ¬(specLabelO (dictLookup jd "Salaryrange") "" = "") :=
          ne_of_beq_false hq
        simp [htr, hcv, hrange, pyStr, specLabel, pure, Except.pure,
          pyTruthy, isEmpty_eq_beq, hq,
          labelGet (dictLookup jd "id_Job_Currency") "SGD" h2,
          labelGet (dictLookup jd "id_Job_Interval") "Month" h3]
  · intro item r h
    unfold parseItem at h
    obtain ⟨job, hjob, h⟩ := exceptBind_ok h
    obtain ⟨company, hcompany, h⟩ := exceptBind_ok h
    obtain ⟨sal, hsal, h⟩ := exceptBind_ok h
    obtain ⟨descr, hdescr, h⟩ := exceptBind_ok h
    obtain ⟨jid, hjid, h⟩ := exceptBind_ok h
    obtain ⟨title, htitle, h⟩ := exceptBind_ok h
    obtain ⟨cname, hcname, h⟩ := exceptBind_ok h
    obtain ⟨idOpt, hidOpt, h⟩ := exceptBind_ok h
    obtain ⟨jc, hjc, h⟩ := exceptBind_ok h
    obtain ⟨cats, hcats, h⟩ := exceptBind_ok h
    obtain ⟨et, het, h⟩ := exceptBind_ok h
    obtain ⟨emps, hemps, h⟩ := exceptBind_ok h
    obtain ⟨mrt, hmrt, h⟩ := exceptBind_ok h
    obtain ⟨locs, hlocs, h⟩ := exceptBind_ok h
    obtain ⟨exp, hexp, h⟩ := exceptBind_ok h
    obtain ⟨edu, hedu, h⟩ := exceptBind_ok h
    obtain ⟨pos, hpos, h⟩ := exceptBind_ok h
    obtain ⟨wa, hwa, h⟩ := exceptBind_ok h
    obtain ⟨skills, hskills, h⟩ := exceptBind_ok h
    obtain ⟨posted, hposted, h⟩ := exceptBind_ok h
    obtain ⟨expires, hexpires, h⟩ := exceptBind_ok h
    simp only [pure, Except.pure, Except.ok.injEq] at h
    simp only [pyGet, Except.ok.injEq] at hjob
    rw [hjob]
    rw [← h]
    exact hsal

/-- Witness for C5: a hidden salary is absent even with a range present,
a visible salary follows the spec rule, and a parsed record carries the
extraction result. -/
theorem c5_witness :
    salaryInfo (.dict [("id_Job_Donotdisplaysalary", Py.int 1),
        ("Salaryrange", .dict [("caption", Py.str "$3000-$4000")])]) =
      .ok Option.none
    ∧ salaryInfo (.dict [("Salaryrange", .dict [("caption", Py.str "$3000-$4000")])]) =
      .ok (salarySpecC5 [("Salaryrange", .dict [("caption", Py.str "$3000-$4000")])])
    ∧ ∃ r, parseItem (.dict [("job", .dict [("Salaryrange",
          .dict [("caption", Py.str "$3000-$4000")])])]) = .ok r
        ∧ salaryInfo ((dictLookup [("job", .dict [("Salaryrange",
            .dict [("caption", Py.str "$3000-$4000")])])] "job").getD (.dict [])) =
          .ok r.salary :=
  ⟨c5_salary_rule.1 _ rfl, c5_salary_rule.2.1 _ rfl,
   ⟨_, rfl, c5_salary_rule.2.2 _ _ rfl⟩⟩

/-!
C6.
-/

/-- C6 is refuted at its own round-trip scenario: BeautifulSoup's
get_text() concatenates the text of adjacent block elements with no
separator, so the description produced for the source HTML
two-paragraph Hello / World is HelloWorld, not Hello-newline-World. -/
theorem c6_counterexample :
    ∃ r, parseItem helloWorldItem = .ok r
      ∧ r.description = .str "HelloWorld"
      ∧ ¬(r.description = .str ("Hello" ++ "\n" ++ "World")) :=
  ⟨_, rfl, rfl, by
    intro hcontra
    injection hcontra with h2
    exact absurd h2 (by decide)⟩

/-- The first character surviving dropWhile fails the predicate. -/
theorem dropWhile_head_not (p : Char → Bool) (l : List Char) :
    ∀ c, (l.dropWhile p).head? = some c → p c = false := by
  induction l with
  | nil => intro c h; simp at h
  | cons a rest ih =>
    intro c h
    cases hp : p a with
    | true =>
      rw [List.dropWhile_cons, if_pos hp] at h
      exact ih c h
    | false =>
      rw [List.dropWhile_cons, if_neg (by simp [hp])] at h
      simp only [List.head?_cons, Option.some.injEq] at h
      rw [← h]
      exact hp

/-- The head of the collapsed form of a nonempty character list is its
first character, or a newline that was the first character's collapsed
run. -/
theorem collapseAux_head (rest : List Char) :
    ∀ (d h : Char), (collapseAux (d :: rest)).head? = some h →
      h = d ∨ (h = '\n' ∧ d = '\n') := by
  induction rest with
  | nil =>
    intro d h hh
    simp only [collapseAux, List.head?_cons, Option.some.injEq] at hh
    exact .inl hh.symm
  | cons e r2 ih =>
    intro d h hh
    by_cases hde : d = '\n' ∧ e = '\n'
    · rw [show collapseAux (d :: e :: r2) = collapseAux (e :: r2)
          from by simp [collapseAux, hde]] at hh
      rcases ih e h hh with h1 | h2
      · exact .inr ⟨h1.trans hde.2, hde.1⟩
      · exact .inr ⟨h2.1, hde.1⟩
    · rw [show collapseAux (d :: e :: r2) = d :: collapseAux (e :: r2)
          from by simp [collapseAux, hde]] at hh
      simp only [List.head?_cons, Option.some.injEq] at hh
      exact .inl hh.symm

/-- No two adjacent newlines survive the collapse. -/
theorem collapseAux_chain (l : List Char) :
    (collapseAux l).Chain' (fun a b => ¬(a = '\n' ∧ b = '\n')) := by
  induction l with
  | nil => simp [collapseAux]
  | cons c tail ih =>
    cases tail with
    | nil => simp [collapseAux]
    | cons d rest =>
      by_cases hcd : c = '\n' ∧ d = '\n'
      · rw [show collapseAux (c :: d :: rest) = collapseAux (d :: rest)
            from by simp [collapseAux, hcd]]
        exact ih
      · rw [show collapseAux (c :: d :: rest) = c :: collapseAux (d :: rest)
            from by simp [collapseAux, hcd]]
        refine List.chain'_cons'.mpr ⟨?_, ih⟩
        intro b hb
        rcases collapseAux_head rest d b hb with rfl | ⟨hb1, hd1⟩
        · exact fun hc => hcd ⟨hc.1, hc.2⟩
        · exact fun hc => hcd ⟨hc.1, hd1⟩

/-- The first character of a stripped string is not whitespace. -/
theorem pyStrip_head (s : String) :
    ∀ c, (pyStrip s).data.head? = some c → isPyWs c = false := by
  intro c hc
  unfold pyStrip at hc
  rw [List.head?_reverse] at hc
  have hm : ((s.data.dropWhile isPyWs).reverse.dropWhile isPyWs) ≠ [] := by
    intro hm
    rw [hm] at hc
    simp at hc
  obtain ⟨t, ht⟩ := List.dropWhile_suffix (l := (s.data.dropWhile isPyWs).reverse) isPyWs
  have hlast : (s.data.dropWhile isPyWs).reverse.getLast? = some c := by
    rw [← ht, List.getLast?_append_of_ne_nil t hm]
    exact hc
  rw [List.getLast?_eq_head?_reverse, List.reverse_reverse] at hlast
  exact dropWhile_head_not isPyWs s.data c hlast

/-- The last character of a stripped string is not whitespace. -/
theorem pyStrip_last (s : String) :
    ∀ c, (pyStrip s).data.getLast? = some c → isPyWs c = false := by
  intro c hc
  unfold pyStrip at hc
  rw [List.getLast?_eq_head?_reverse, List.reverse_reverse] at hc
  exact dropWhile_head_not isPyWs (s.data.dropWhile isPyWs).reverse c hc

/-- C6 amended: the description pipeline strips tags by concatenating the
text outside them (block boundaries introduce no separator, so the
two-paragraph Hello World source yields HelloWorld), collapses newline
runs so no two adjacent newlines remain, trims so no leading or trailing
whitespace remains, and truncates to 500 characters appending an ellipsis
exactly when the cleaned text exceeds 500 characters. -/
theorem c6_description_pipeline :
    (∀ (jd : List (String × Py)) (s : String),
       dictLookup jd "JobDescription" = some (.str s) → ¬(s = "") →
       descInfo (.dict jd) = .ok (.str (descProcess s)))
    ∧ (∀ t : String,
       (¬(t.length > 500) → truncateDesc t = t)
       ∧ (t.length > 500 →
          truncateDesc t = String.mk (t.data.take 500) ++ "..."
          ∧ (truncateDesc t).length = 503))
    ∧ (∀ s : String,
       (collapseNewlines s).data.Chain' (fun a b => ¬(a = '\n' ∧ b = '\n')))
    ∧ (∀ (s : String) (c : Char),
       ((pyStrip s).data.head? = some c → isPyWs c = false)
       ∧ ((pyStrip s).data.getLast? = some c → isPyWs c = false))
    ∧ descProcess "<p>Hello</p><p>World</p>" = "HelloWorld" := by
  refine ⟨?_, ?_, ?_, ?_, rfl⟩
  · intro jd s hlook hs
    unfold descInfo
    simp [pyGet, hlook, pyTruthy, String.isEmpty_iff, hs, Bind.bind, Except.bind,
      pure, Except.pure]
  · intro t
    constructor
    · intro h
      simp [truncateDesc, h]
    · intro h
      have h1 : (String.mk (t.data.take 500)).length = 500 := by
        show (t.data.take 500).length = 500
        rw [List.length_take]
        have h2 : 500 ≤ t.data.length := by
          have h3 : t.length = t.data.length := rfl
          omega
        omega
      refine ⟨by simp [truncateDesc, h], ?_⟩
      have h4 : truncateDesc t = String.mk (t.data.take 500) ++ "..." := by
        simp [truncateDesc, h]
      rw [h4, String.length_append, h1]
      rfl
  · intro s
    exact collapseAux_chain s.data
  · intro s c
    exact ⟨pyStrip_head s c, pyStrip_last s c⟩

/-- Witness for the amended C6: a concrete small description is cleaned
untruncated, and a 501-character text is truncated to 503 characters with
the ellipsis. -/
theorem c6_witness :
    descInfo (.dict [("JobDescription", Py.str "<p>Hi</p>")]) =
      .ok (.str (descProcess "<p>Hi</p>"))
    ∧ truncateDesc (String.mk (List.replicate 501 'a')) =
        String.mk ((String.mk (List.replicate 501 'a')).data.take 500) ++ "..."
    ∧ (truncateDesc (String.mk (List.replicate 501 'a'))).length = 503 :=
  ⟨c6_description_pipeline.1 [("JobDescription", Py.str "<p>Hi</p>")]
      "<p>Hi</p>" rfl (by decide),
   (c6_description_pipeline.2.1 (String.mk (List.replicate 501 'a'))).2
     (by show (List.replicate 501 'a').length > 500; simp) |>.1,
   (c6_description_pipeline.2.1 (String.mk (List.replicate 501 'a'))).2
     (by show (List.replicate 501 'a').length > 500; simp) |>.2⟩

/-!
C10.
-/

/-- Keys after one increment are old keys or the incremented key. -/
theorem bumpKey_keys (m : List (Py × Nat)) (k : Py) :
    ∀ p ∈ bumpKey m k, (∃ q ∈ m, p.1 = q.1) ∨ p.1 = k := by
  induction m with
  | nil =>
    intro p hp
    simp only [bumpKey, List.mem_singleton] at hp
    exact .inr (by rw [hp])
  | cons e rest ih =>
    obtain ⟨k2, n⟩ := e
    intro p hp
    by_cases hk : pyEq k2 k = true
    · rw [show bumpKey ((k2, n) :: rest) k = (k2, n + 1) :: rest
          from by simp [bumpKey, hk]] at hp
      rcases List.mem_cons.mp hp with rfl | hp2
      · exact .inl ⟨(k2, n), List.mem_cons_self _ _, rfl⟩
      · exact .inl ⟨p, List.mem_cons_of_mem _ hp2, rfl⟩
    · rw [show bumpKey ((k2, n) :: rest) k = (k2, n) :: bumpKey rest k
          from by simp [bumpKey, hk]] at hp
      rcases List.mem_cons.mp hp with rfl | hp2
      · exact .inl ⟨(k2, n), List.mem_cons_self _ _, rfl⟩
      · rcases ih p hp2 with ⟨q, hq, hpq⟩ | hpk
        · exact .inl ⟨q, List.mem_cons_of_mem _ hq, hpq⟩
        · exact .inr hpk

/-- Keys after counting a taxonomy list are old keys or truthy values of
the list. -/
theorem countMulti_keys (l : List Py) :
    ∀ (m m2 : List (Py × Nat)), countMulti m l = .ok m2 →
    ∀ p ∈ m2, (∃ q ∈ m, p.1 = q.1) ∨ (∃ c ∈ l, pyTruthy c = true ∧ p.1 = c) := by
  induction l with
  | nil =>
    intro m m2 h p hp
    simp only [countMulti, Except.ok.injEq] at h
    exact .inl ⟨p, h ▸ hp, rfl⟩
  | cons c cs ih =>
    intro m m2 h p hp
    cases ht : pyTruthy c with
    | false =>
      rw [show countMulti m (c :: cs) = countMulti m cs
          from by simp [countMulti, ht]] at h
      rcases ih m m2 h p hp with hold | ⟨c2, hc2, htc2, hpc2⟩
      · exact .inl hold
      · exact .inr ⟨c2, List.mem_cons_of_mem _ hc2, htc2, hpc2⟩
    | true =>
      cases hh : pyHashable c with
      | false =>
        rw [show countMulti m (c :: cs) = .error "TypeError: unhashable type"
            from by simp [countMulti, ht, bump, hh]] at h
        exact absurd h (by simp)
      | true =>
        rw [show countMulti m (c :: cs) = countMulti (bumpKey m c) cs
            from by simp [countMulti, ht, bump, hh]] at h
        rcases ih (bumpKey m c) m2 h p hp with ⟨q, hq, hpq⟩ | ⟨c2, hc2, htc2, hpc2⟩
        · rcases bumpKey_keys m c q hq with ⟨q2, hq2, hqq2⟩ | hqc
          · exact .inl ⟨q2, hq2, hpq.trans hqq2⟩
          · exact .inr ⟨c, List.mem_cons_self _ _, ht, hpq.trans hqc⟩
        · exact .inr ⟨c2, List.mem_cons_of_mem _ hc2, htc2, hpc2⟩

/-- Keys after counting a single-valued field are old keys or that value,
counted only when truthy and not "N/A". -/
theorem countSingle_keys (m m2 : List (Py × Nat)) (v : Py)
    (h : countSingle m v = .ok m2) :
    ∀ p ∈ m2, (∃ q ∈ m, p.1 = q.1) ∨
      (pyTruthy v = true ∧ pyEq v (.str "N/A") = false ∧ p.1 = v) := by
  intro p hp
  unfold countSingle at h
  cases hc : (pyTruthy v && !(pyEq v (.str "N/A"))) with
  | false =>
    rw [hc] at h
    simp only [Bool.false_eq_true, if_false, Except.ok.injEq] at h
    exact .inl ⟨p, h ▸ hp, rfl⟩
  | true =>
    rw [hc] at h
    simp only [if_true] at h
    simp only [Bool.and_eq_true, Bool.not_eq_true'] at hc
    unfold bump at h
    cases hh : pyHashable v with
    | false => rw [hh] at h; exact absurd h (by simp)
    | true =>
      rw [hh] at h
      simp only [if_true, Except.ok.injEq] at h
      rcases bumpKey_keys m v p (h ▸ hp) with hold | hpv
      · exact .inl hold
      · exact .inr ⟨hc.1, hc.2, hpv⟩

/-- One loop iteration preserves the counter key invariant. -/
theorem statsStep_keys (st st2 : Counters) (job : JobRecord)
    (h : statsStep st job = .ok st2) (hok : countersOK st) : countersOK st2 := by
  unfold statsStep at h
  obtain ⟨c, hc, h⟩ := exceptBind_ok h
  obtain ⟨e, he, h⟩ := exceptBind_ok h
  obtain ⟨l, hl, h⟩ := exceptBind_ok h
  obtain ⟨ed, hed, h⟩ := exceptBind_ok h
  obtain ⟨ex, hex, h⟩ := exceptBind_ok h
  simp only [pure, Except.pure, Except.ok.injEq] at h
  obtain ⟨hok1, hok2, hok3, hok4, hok5⟩ := hok
  rw [← h]
  refine ⟨?_, ?_, ?_, ?_, ?_⟩
  · intro p hp
    rcases countMulti_keys job.categories st.cats c hc p hp with ⟨q, hq, hpq⟩ | ⟨c2, _, ht, hpc⟩
    · rw [hpq]; exact hok1 q hq
    · rw [hpc]; exact ht
  · intro p hp
    rcases countMulti_keys job.employment_type st.emps e he p hp with ⟨q, hq, hpq⟩ | ⟨c2, _, ht, hpc⟩
    · rw [hpq]; exact hok2 q hq
    · rw [hpc]; exact ht
  · intro p hp
    rcases countMulti_keys job.location st.locs l hl p hp with ⟨q, hq, hpq⟩ | ⟨c2, _, ht, hpc⟩
    · rw [hpq]; exact hok3 q hq
    · rw [hpc]; exact ht
  · intro p hp
    rcases countSingle_keys st.edus ed job.education hed p hp with ⟨q, hq, hpq⟩ | ⟨ht, hna, hpv⟩
    · rw [hpq]; exact hok4 q hq
    · rw [hpv]; exact ⟨ht, hna⟩
  · intro p hp
    rcases countSingle_keys st.exps ex job.experience hex p hp with ⟨q, hq, hpq⟩ | ⟨ht, hna, hpv⟩
    · rw [hpq]; exact hok5 q hq
    · rw [hpv]; exact ⟨ht, hna⟩

/-- The whole counting loop establishes the counter key invariant. -/
theorem buildCounters_keys (jobs : List JobRecord) :
    ∀ (init c : Counters), jobs.foldlM statsStep init = .ok c →
      countersOK init → countersOK c := by
  induction jobs with
  | nil =>
    intro init c h hok
    simp only [List.foldlM_nil, pure, Except.pure, Except.ok.injEq] at h
    rw [← h]
    exact hok
  | cons j rest ih =>
    intro init c h hok
    rw [List.foldlM_cons] at h
    obtain ⟨st2, hst2, h⟩ := exceptBind_ok h
    exact ih st2 c h (statsStep_keys init st2 j hst2 hok)

/-- A truthy counter key is not the empty string. -/
theorem truthy_ne_empty {k : Py} (h : pyTruthy k = true) : ¬(k = .str "") := by
  intro heq
  rw [heq] at h
  exact absurd h (by decide)

/-- A key that fails the Python equality test with "N/A" is not "N/A". -/
theorem notNA_of_pyEq_false {k : Py} (h : pyEq k (.str "N/A") = false) :
    ¬(k = .str "N/A") := by
  intro heq
  rw [heq] at h
  exact absurd h (by decide)

/-- C10: a JobRecord's taxonomy lists can carry empty-string entries (one
per source entry without a display label), yet the empty string is never a
key of any of the five frequency tables calculate_job_statistics produces,
and the education/experience tables also exclude the "N/A" default. -/
theorem c10_no_empty_keys :
    (∃ r, parseItem emptyCapItem = .ok r ∧ r.categories = [.str ""])
    ∧ (∀ (keywords : String) (sample_size : Int)
         (remote : List (String × Py) → FetchOutcome) (st : StatsSuccess),
       calculate_job_statistics keywords sample_size remote = .ok (.success st) →
       (∀ p ∈ st.statistics.top_categories, ¬(p.1 = .str ""))
       ∧ (∀ p ∈ st.statistics.employment_types, ¬(p.1 = .str ""))
       ∧ (∀ p ∈ st.statistics.top_locations, ¬(p.1 = .str ""))
       ∧ (∀ p ∈ st.statistics.education_requirements,
            ¬(p.1 = .str "") ∧ ¬(p.1 = .str "N/A"))
       ∧ (∀ p ∈ st.statistics.experience_requirements,
            ¬(p.1 = .str "") ∧ ¬(p.1 = .str "N/A"))) := by
  constructor
  · exact ⟨_, rfl, rfl⟩
  · intro keywords sample_size remote st h
    unfold calculate_job_statistics at h
    cases hs : search_jobs_api keywords 1 (min sample_size 20) remote with
    | failure e => rw [hs] at h; simp at h
    | success s =>
      rw [hs] at h
      dsimp only at h
      cases hb : buildCounters s.jobs with
      | error e => rw [hb] at h; exact absurd h (by simp)
      | ok c =>
        rw [hb] at h
        simp only [Except.ok.injEq, StatsOutput.success.injEq] at h
        unfold buildCounters at hb
        have hok : countersOK c := by
          refine buildCounters_keys s.jobs ⟨[], [], [], [], []⟩ c hb ?_
          refine ⟨?_, ?_, ?_, ?_, ?_⟩ <;> intro p hp <;> exact absurd hp (List.not_mem_nil p)
        obtain ⟨hok1, hok2, hok3, hok4, hok5⟩ := hok
        rw [← h]
        refine ⟨?_, ?_, ?_, ?_, ?_⟩
        · intro p hp
          have hp2 : p ∈ c.cats :=
            (sortDesc_perm c.cats).mem_iff.mp (List.take_subset 5 _ hp)
          exact truthy_ne_empty (hok1 p hp2)
        · intro p hp
          exact truthy_ne_empty (hok2 p hp)
        · intro p hp
          have hp2 : p ∈ c.locs :=
            (sortDesc_perm c.locs).mem_iff.mp (List.take_subset 5 _ hp)
          exact truthy_ne_empty (hok3 p hp2)
        · intro p hp
          exact ⟨truthy_ne_empty (hok4 p hp).1, notNA_of_pyEq_false (hok4 p hp).2⟩
        · intro p hp
          exact ⟨truthy_ne_empty (hok5 p hp).1, notNA_of_pyEq_false (hok5 p hp).2⟩

/-- Witness for C10 at a concrete remote response. -/
theorem c10_witness :
    ∃ st, calculate_job_statistics "chef" 20 (fun _ => .body twoJobsBody) =
        .ok (.success st)
      ∧ (∀ p ∈ st.statistics.top_categories, ¬(p.1 = .str ""))
      ∧ (∀ p ∈ st.statistics.education_requirements,
           ¬(p.1 = .str "") ∧ ¬(p.1 = .str "N/A")) :=
  ⟨_, rfl, (c10_no_empty_keys.2 "chef" 20 (fun _ => .body twoJobsBody) _ rfl).1,
   (c10_no_empty_keys.2 "chef" 20 (fun _ => .body twoJobsBody) _ rfl).2.2.2.1⟩
